import Mathlib

/-!
Verification development for the ticktick-ai-demo repository.

The repository glues the TickTick task API to an LLM chat API.  The parts
embedded here are the ones with actual logic:

* the plan-reply validation shared (byte-identically) by
  `llm_client.LLMClient.generate_task_plan` (src/llm_client.py, lines 205-247)
  and `main.AIProjectManager._generate_task_plan_with_pm` (src/main.py,
  lines 644-676);
* the prompt renderers of `prompt_manager.PromptManager`
  (`render_planner_prompt`, `render_dashboard_prompt`) and the task-line
  formatter `main.AIProjectManager._format_task_list_for_dashboard`;
* the daily-log store `main.DailyLogManager` (`get_today_logs`,
  `add_log_entry`);
* the `[Audit Note]` marker handling in
  `main.AIProjectManager._display_stream_response` and
  `main.AIProjectManager.process_wechat_message`.

Python values decoded by `json.loads` are modelled by the `JValue` type
(JSON numbers are modelled as integers: the planner schema only ever uses
integer day offsets).  Python string primitives used by the code
(`str.strip`, `str.replace`, the `in` substring test, `int(...)` coercion)
are re-implemented over `List Char` so that every definition evaluates in
the kernel.  Code paths that can raise are embedded as `Except`/`Option`
results; code paths that catch every exception and return a default are
embedded as total functions returning that default.
-/

/-- A JSON value as produced by Python's `json.loads`: an `obj` models a
Python dict (keys unique), numbers are modelled as integers. -/
inductive JValue where
  | null
  | bool (b : Bool)
  | num (n : Int)
  | str (s : String)
  | arr (xs : List JValue)
  | obj (fields : List (String × JValue))

/-- Dict lookup, `d.get(k)` / `k in d`: `none` models an absent key. -/
def jlookup (fields : List (String × JValue)) (k : String) : Option JValue :=
  (fields.find? (fun p => p.1 == k)).map (fun p => p.2)

/-- Whether the value is a Python dict (`isinstance(x, dict)`). -/
def jIsObj : JValue → Bool
  | .obj _ => true
  | _ => false

/-- Whether the value is a Python list (`isinstance(x, list)`). -/
def jIsArr : JValue → Bool
  | .arr _ => true
  | _ => false

/-- Python truthiness of a decoded JSON value (`bool(x)`). -/
def pyTruthy : JValue → Bool
  | .null => false
  | .bool b => b
  | .num n => n != 0
  | .str s => s != ""
  | .arr xs => !xs.isEmpty
  | .obj fs => !fs.isEmpty

/-- ASCII whitespace stripped by Python's `str.strip()` (Python also strips
other Unicode whitespace; the code and the claims only exercise ASCII). -/
def isPySpace (c : Char) : Bool :=
  c == ' ' || c == '\t' || c == '\n' || c == '\r' || c == '\x0b' || c == '\x0c'

/-- Python `s.strip()`. -/
def pyStrip (s : String) : String :=
  String.mk (((s.data.dropWhile isPySpace).reverse.dropWhile isPySpace).reverse)

/-- One left-to-right pass replacing every non-overlapping occurrence of the
pattern `p :: ps`, as Python's `str.replace` does.  The `fuel` argument only
makes the recursion structural (each step consumes at least one character,
so `fuel = l.length` never runs out); the `0` case returns the remaining
input unchanged. -/
def replaceAux (p : Char) (ps rep : List Char) : Nat → List Char → List Char
  | 0, l => l
  | _ + 1, [] => []
  | fuel + 1, c :: cs =>
    if (p :: ps).isPrefixOf (c :: cs) then
      rep ++ replaceAux p ps rep fuel (cs.drop ps.length)
    else
      c :: replaceAux p ps rep fuel cs

/-- Python `s.replace(pat, rep)` (the code only ever replaces non-empty
patterns; for an empty pattern we return `s` unchanged). -/
def pyReplace (s pat rep : String) : String :=
  match pat.data with
  | [] => s
  | p :: ps => String.mk (replaceAux p ps rep.data s.data.length s.data)

/-- Substring search over character lists. -/
def containsAux (pat : List Char) : List Char → Bool
  | [] => pat.isEmpty
  | c :: cs => pat.isPrefixOf (c :: cs) || containsAux pat cs

/-- Python's substring test `pat in s`. -/
def pyContains (s pat : String) : Bool :=
  containsAux pat.data s.data

/-- Digit accumulator for `int(...)` applied to a string. -/
def digitsCore : Nat → List Char → Option Nat
  | acc, [] => some acc
  | acc, c :: cs =>
    if c.isDigit then digitsCore (10 * acc + (c.toNat - 48)) cs else none

/-- Value of a non-empty all-digit character list, `none` otherwise. -/
def digitsVal (l : List Char) : Option Nat :=
  match l with
  | [] => none
  | _ => digitsCore 0 l

/-- Python `int(s)` on a string: optional surrounding whitespace, optional
sign, then decimal digits; anything else raises `ValueError` (`none`).
(Underscore digit grouping, accepted by CPython, is not modelled: the code
never produces it.) -/
def pyIntOfStr (s : String) : Option Int :=
  match (pyStrip s).data with
  | '-' :: rest => (digitsVal rest).map (fun n => -(n : Int))
  | '+' :: rest => (digitsVal rest).map (fun n => (n : Int))
  | l => (digitsVal l).map (fun n => (n : Int))

/-- Python `int(x)` on a decoded JSON value: `none` models the
`ValueError`/`TypeError` raised when the value cannot be coerced. -/
def pyInt : JValue → Option Int
  | .num n => some n
  | .bool b => some (if b then 1 else 0)
  | .str s => pyIntOfStr s
  | _ => none

mutual

/-- Python `repr(x)` of a decoded JSON value (string escaping inside `repr`
is not modelled; no claim depends on it). -/
def pyRepr : JValue → String
  | .null => "None"
  | .bool true => "True"
  | .bool false => "False"
  | .num n => toString n
  | .str s => "'" ++ s ++ "'"
  | .arr xs => "[" ++ pyReprArr xs ++ "]"
  | .obj fs => "\x7b" ++ pyReprObj fs ++ "\x7d"

/-- Comma-joined `repr` of list elements. -/
def pyReprArr : List JValue → String
  | [] => ""
  | [x] => pyRepr x
  | x :: y :: xs => pyRepr x ++ ", " ++ pyReprArr (y :: xs)

/-- Comma-joined `repr` of dict items. -/
def pyReprObj : List (String × JValue) → String
  | [] => ""
  | [(k, v)] => "'" ++ k ++ "': " ++ pyRepr v
  | (k, v) :: p :: fs => "'" ++ k ++ "': " ++ pyRepr v ++ ", " ++ pyReprObj (p :: fs)

end

/-- Python `str(x)` of a decoded JSON value. -/
def pyStr : JValue → String
  | .str s => s
  | v => pyRepr v

/-- One validated plan record: `validated_task` in both parse sites. -/
structure PlanItem where
  title : String
  content : String
  day_offset : Int
deriving DecidableEq

/-- The exceptions the parse code can raise: the two explicit
`json.JSONDecodeError` raises for a malformed top level, and the
`ValueError`/`TypeError` from `int(...)` (surfaced to the caller as
`RuntimeError`). -/
inductive PlanErr where
  | malformedTopLevel
  | malformedTasksNotList
  | coercionFailure
deriving DecidableEq

/-- Body of the per-task loop shared by `generate_task_plan`
(src/llm_client.py, lines 224-240) and `_generate_task_plan_with_pm`
(src/main.py, lines 658-674): a non-dict element is skipped (`ok none`), an
element whose `title` key is absent or falsy is skipped, otherwise the
record is built, coercing `day_offset` with `int(task.get("day_offset", 0))`
-- whose failure raises out of the whole parse. -/
def validate_task (t : JValue) : Except PlanErr (Option PlanItem) :=
  match t with
  | .obj fs =>
    match jlookup fs "title" with
    | none => .ok none
    | some tv =>
      if pyTruthy tv then
        match pyInt ((jlookup fs "day_offset").getD (.num 0)) with
        | some d =>
          .ok (some
            { title := pyStrip (pyStr ((jlookup fs "title").getD (.str ""))),
              content := pyStrip (pyStr ((jlookup fs "content").getD (.str ""))),
              day_offset := d })
        | none => .error .coercionFailure
      else .ok none
  | _ => .ok none

/-- The validation loop over the `tasks` array: surviving records in array
order; the first coercion failure aborts the whole parse, as the Python
exception does. -/
def validate_tasks : List JValue → Except PlanErr (List PlanItem)
  | [] => .ok []
  | t :: ts =>
    match validate_task t with
    | .error e => .error e
    | .ok none => validate_tasks ts
    | .ok (some it) => (validate_tasks ts).map (fun l => it :: l)

/-- The plan-reply validation of `llm_client.LLMClient.generate_task_plan`
(src/llm_client.py, lines 205-247), applied to the decoded JSON value of the
model's reply: a non-dict top level raises, `data.get("tasks", [])` defaults
an absent `tasks` key to the empty list, a present non-list `tasks` value
raises, then each element goes through `validate_task`.  (The trailing
`if not validated_tasks: return []` in the source returns the same empty
list it tests.) -/
def generate_task_plan_parse (data : JValue) : Except PlanErr (List PlanItem) :=
  match data with
  | .obj fs =>
    match (jlookup fs "tasks").getD (.arr []) with
    | .arr ts => validate_tasks ts
    | _ => .error .malformedTasksNotList
  | _ => .error .malformedTopLevel

/-- The parse code of `main.AIProjectManager._generate_task_plan_with_pm`
(src/main.py, lines 644-676) is byte-identical to the one in
`generate_task_plan`; it is the same function of the decoded reply. -/
def generate_task_plan_with_pm_parse : JValue → Except PlanErr (List PlanItem) :=
  generate_task_plan_parse

example : generate_task_plan_parse (.obj []) = .ok [] := by rfl
example : generate_task_plan_parse (.num 3) = .error .malformedTopLevel := by rfl
example :
    generate_task_plan_parse (.obj [("tasks", .arr [.obj [("title", .str "   ")]])]) =
      .ok [{ title := "", content := "", day_offset := 0 }] := by rfl
example :
    generate_task_plan_parse
      (.obj [("tasks", .arr [.obj [("title", .str "a"), ("day_offset", .str "soon")]])]) =
      .error .coercionFailure := by rfl
example :
    generate_task_plan_parse
      (.obj [("tasks", .arr [.obj [("title", .str "a"), ("day_offset", .str " 12 ")]])]) =
      .ok [{ title := "a", content := "", day_offset := 12 }] := by rfl

/-- The planner prompt template of
`prompt_manager.PromptManager.render_planner_prompt` (src/prompt_manager.py,
lines 133-154): a pure f-string interpolation of `goal` and `context`.  The
source function contains no validation and no raise. -/
def render_planner_prompt (goal context : String) : String :=
  "\n【任务拆解指令】\n用户目标: \"" ++ goal ++ "\"\n补充背景: " ++ context ++
  "\n\n作为战略审计官，请依据\"失败是流程拆解不彻底\"的原则，将此目标拆解为执行链条。\n\n要求：\n" ++
  "1. **返回格式**: 必须是合法的 JSON (包含 'tasks' 列表，每项含 'title', 'content', 'day_offset')。\n" ++
  "2. **粒度控制**: 拒绝宏大叙事。任务必须是物理上可执行的动作（如\"阅读第5章\"而不是\"学习知识\"）。\n" ++
  "3. **熵减原则**: 任务顺序必须符合逻辑，减少执行时的认知摩擦。\n"

/-- Exception behaviour of `render_planner_prompt` made explicit: the source
body is a single return of an f-string and has no raise statement, so every
call returns normally (`ok`). -/
def render_planner_promptE (goal context : String) : Except String String :=
  .ok (render_planner_prompt goal context)

/-- The context string `run_planner` passes to the planning call
(src/main.py, line 287). -/
def run_planner_context : String := "User wants a gradual, step-by-step approach"

/-- The goal handling of `main.AIProjectManager.run_planner` (src/main.py,
lines 274-289): the raw input is stripped; an empty result aborts back to
the menu (`none`) before any prompt is rendered; otherwise the planner
prompt for the stripped goal is produced. -/
def run_planner_prompt (rawInput : String) : Option String :=
  let goal := pyStrip rawInput
  if goal == "" then none
  else some (render_planner_prompt goal run_planner_context)

/-- The dashboard summary fields read by `render_dashboard_prompt`:
`total_active_tasks` is accessed directly (`summary['total_active_tasks']`),
the other two via `.get(..., 0)`, so they are optional. -/
structure DashboardSummary where
  total_active_tasks : Nat
  overdue_tasks : Option Nat
  high_priority_count : Option Nat

/-- The dashboard prompt template of
`prompt_manager.PromptManager.render_dashboard_prompt`
(src/prompt_manager.py, lines 244-276). -/
def render_dashboard_prompt (summary : DashboardSummary) (task_list_str : String) : String :=
  "\n【系统级健康审计 (System Health Audit)】\n\n## 仪表盘数据\n* 活跃任务数: " ++
  toString summary.total_active_tasks ++
  "\n* 逾期任务数: " ++ toString (summary.overdue_tasks.getD 0) ++
  "\n* 高优任务数: " ++ toString (summary.high_priority_count.getD 0) ++
  "\n\n## 任务样本采样\n" ++ task_list_str ++
  "\n\n## 审计要求\n作为战略审计官，请对当前系统进行\"熵值检测\"：\n\n" ++
  "1.  **风险暴露 (Risk Exposure)**: 识别系统中\"逾期\"和\"无优先级\"任务带来的具体风险。\n" ++
  "2.  **伪勤奋识别**: 指出哪些任务看起来很忙但 ROI 极低（低杠杆）。\n" ++
  "3.  **资源错配**: 分析用户的精力是否真正分配给了 [雅思/技术进阶] 和 [小说创作/开源项目]，还是被琐事淹没。\n" ++
  "4.  **战术重构**: 给出 3 条铁律，强制用户立即执行以降低系统熵值。\n\n保持冷峻、客观、数据导向。\n"

/-- One task dict as consumed by `_format_task_list_for_dashboard`
(src/main.py, lines 584-607): optional fields are read with `.get`. -/
structure DashTask where
  project : String
  title : String
  due_date : Option String
  priority : Option Int
  tags : List String

/-- One formatted line of `_format_task_list_for_dashboard`: index, project,
title, then the due date when truthy, a `[Priority]` flag when the priority
is 3 or 5, and the tags when the list is non-empty. -/
def format_task_line (i : Nat) (t : DashTask) : String :=
  let line := toString i ++ ". [" ++ t.project ++ "] " ++ t.title
  let line := line ++
    (match t.due_date with
     | some d => if d == "" then "" else " (Due: " ++ d ++ ")"
     | none => "")
  let line := line ++
    (if t.priority == some 3 || t.priority == some 5 then " [Priority]" else "")
  let line := line ++
    (if t.tags.isEmpty then "" else " [Tags: " ++ String.intercalate ", " t.tags ++ "]")
  line

/-- `main.AIProjectManager._format_task_list_for_dashboard` (src/main.py,
lines 584-607): the first 30 tasks, numbered from 1, one line each with a
trailing newline. -/
def format_task_list_for_dashboard (tasks : List DashTask) : String :=
  String.join (((tasks.take 30).enumFrom 1).map (fun p => format_task_line p.1 p.2 ++ "\n"))

/-- State of today's log file as `main.DailyLogManager` can find it:
absent, unreadable (invalid JSON or an I/O error), or holding a decoded
JSON value. -/
inductive LogFileState where
  | missing
  | malformed
  | stored (v : JValue)

/-- `main.DailyLogManager.get_today_logs` (src/main.py, lines 109-134): an
absent file, an unreadable file (every exception is caught), and a decoded
value that is not a list all yield the empty list; otherwise the stored
list is returned. -/
def get_today_logs : LogFileState → List JValue
  | .missing => []
  | .malformed => []
  | .stored (.arr logs) => logs
  | .stored _ => []

/-- The entry dict built by `add_log_entry` (src/main.py, lines 86-95):
`type` and `content` always, `ai_response` only when non-empty (it is
tested for truthiness), `timestamp` only when `auto_timestamp`; `now` is
the `datetime.now().isoformat()` string. -/
def mk_log_entry (log_type content ai_response : String) (auto_timestamp : Bool)
    (now : String) : JValue :=
  .obj ([("type", .str log_type), ("content", .str content)] ++
    (if ai_response == "" then [] else [("ai_response", .str ai_response)]) ++
    (if auto_timestamp then [("timestamp", .str now)] else []))

/-- `main.DailyLogManager.add_log_entry` (src/main.py, lines 66-107) on its
success path: it reads the whole existing file with `get_today_logs`,
appends the new entry in memory, and rewrites the whole file with the
resulting list. -/
def add_log_entry (st : LogFileState) (log_type content ai_response : String)
    (auto_timestamp : Bool) (now : String) : LogFileState :=
  .stored (.arr (get_today_logs st ++ [mk_log_entry log_type content ai_response auto_timestamp now]))

/-- The sentinel marker the stream-response prompt asks the model to emit on
a detected negative-affect deviation. -/
def audit_marker : String := "[Audit Note]"

/-- The boilerplate phrase `_display_stream_response` strips together with
the marker (src/main.py, line 779). -/
def audit_boilerplate : String := "记录负面偏差，待总结复盘原因（方法论 vs 输入量）。"

/-- `main.AIProjectManager._display_stream_response` (src/main.py, lines
763-788), abstracted to what it prints: the flag component is `true` when
the system-flag line is printed, the second component is the response text
printed (`none` when nothing beyond the flag is printed).  When the marker
is present the marker and the boilerplate phrase are replaced away and the
remainder is shown only if non-empty after stripping. -/
def display_stream_response (ai_response : String) : Bool × Option String :=
  let clean_response := pyStrip ai_response
  if pyContains clean_response audit_marker then
    let actual_content :=
      pyStrip (pyReplace (pyReplace clean_response audit_marker "") audit_boilerplate "")
    (true, if actual_content == "" then none else some actual_content)
  else
    (false, some clean_response)

/-- The flag header `process_wechat_message` prepends (src/main.py,
line 1019). -/
def wechat_flag_header : String := "⚠️ [系统标记] 负面情绪已归档\n----------------\n"

/-- The `[Audit Note]` handling of `main.AIProjectManager.process_wechat_message`
(src/main.py, lines 1016-1021): when the marker occurs in the AI response,
only the marker is replaced away (the boilerplate phrase is NOT stripped
here) and the flag header is prepended; otherwise the response is returned
unchanged. -/
def process_wechat_reply (ai_response : String) : String :=
  if pyContains ai_response audit_marker then
    wechat_flag_header ++ pyStrip (pyReplace ai_response audit_marker "")
  else ai_response

example : pyStrip "  a b  " = "a b" := by rfl
example : pyReplace "xAByAB" "AB" "" = "xy" := by rfl
example : pyContains "qq[Audit Note]ww" "[Audit Note]" = true := by rfl
example : run_planner_prompt "   " = none := by rfl
example :
    display_stream_response "[Audit Note]记录负面偏差，待总结复盘原因（方法论 vs 输入量）。休息。" =
      (true, some "休息。") := by rfl
example :
    process_wechat_reply "[Audit Note]指令。" = wechat_flag_header ++ "指令。" := by rfl
example :
    format_task_list_for_dashboard
      [⟨"Work", "Fix login bug", some "2025-01-10", some 5, []⟩,
       ⟨"Life", "Buy groceries", none, none, []⟩] =
      "1. [Work] Fix login bug (Due: 2025-01-10) [Priority]\n2. [Life] Buy groceries\n" := by rfl

/-- A membership-driven error: if any element of the array makes the
per-task validation raise, the whole validation raises. -/
theorem validate_tasks_error_of_mem (ts : List JValue) (t : JValue) (e : PlanErr)
    (hmem : t ∈ ts) (herr : validate_task t = .error e) :
    ∃ e', validate_tasks ts = .error e' := by
  induction ts with
  | nil => cases hmem
  | cons hd tl ih =>
    rcases List.mem_cons.mp hmem with rfl | hmem'
    · exact ⟨e, by simp [validate_tasks, herr]⟩
    · obtain ⟨e', he'⟩ := ih hmem'
      unfold validate_tasks
      match hv : validate_task hd with
      | .error e0 => exact ⟨e0, rfl⟩
      | .ok none => exact ⟨e', he'⟩
      | .ok (some it) => exact ⟨e', by rw [he']; rfl⟩

/-- Claim C1 (corrected): the parse shared by `generate_task_plan` and
`_generate_task_plan_with_pm` raises its malformed-response error for every
reply whose JSON value is not an object; but a reply that is an object
without a `tasks` key does NOT raise -- `data.get("tasks", [])` defaults it
to the empty list and the parse returns `[]`.  Only a `tasks` key bound to a
non-list value raises. -/
theorem parse_top_level_validation :
    (∀ v : JValue, jIsObj v = false →
      generate_task_plan_parse v = .error .malformedTopLevel ∧
      generate_task_plan_with_pm_parse v = .error .malformedTopLevel) ∧
    (∀ fs, jlookup fs "tasks" = none → generate_task_plan_parse (.obj fs) = .ok []) ∧
    (∀ fs t, jlookup fs "tasks" = some t → jIsArr t = false →
      generate_task_plan_parse (.obj fs) = .error .malformedTasksNotList) := by
  refine ⟨?_, ?_, ?_⟩
  · intro v h
    cases v <;> simp_all [generate_task_plan_parse, generate_task_plan_with_pm_parse, jIsObj]
  · intro fs h
    simp [generate_task_plan_parse, h, validate_tasks]
  · intro fs t h h2
    cases t <;> simp_all [generate_task_plan_parse, jIsArr]

/-- Witness for `parse_top_level_validation` at concrete replies. -/
theorem parse_top_level_validation_witness :
    generate_task_plan_parse (.num 3) = .error .malformedTopLevel ∧
    generate_task_plan_parse (.obj [("goal", .str "x")]) = .ok [] ∧
    generate_task_plan_parse (.obj [("tasks", .str "x")]) = .error .malformedTasksNotList :=
  ⟨(parse_top_level_validation.1 (.num 3) rfl).1,
   parse_top_level_validation.2.1 [("goal", .str "x")] rfl,
   parse_top_level_validation.2.2 [("tasks", .str "x")] (.str "x") rfl rfl⟩

/-- Counterexample to claim C1: a JSON object that lacks a `tasks` key is
parsed without error (the result is the empty list) by both parse sites,
instead of raising a malformed-response error. -/
theorem parse_missing_tasks_key_no_error :
    generate_task_plan_parse (.obj []) = .ok [] ∧
    generate_task_plan_with_pm_parse (.obj []) = .ok [] :=
  ⟨rfl, rfl⟩

/-- Claim C2 (corrected): an absent `day_offset` is defaulted to `0` and
the item is kept; but a present value that `int(...)` cannot coerce makes
the whole parse raise (surfaced as `RuntimeError`) -- the item is neither
kept with `0` nor silently rejected. -/
theorem parse_day_offset_policy :
    (∀ fs tv, jlookup fs "title" = some tv → pyTruthy tv = true →
      jlookup fs "day_offset" = none →
      ∃ it, validate_task (.obj fs) = .ok (some it) ∧ it.day_offset = 0) ∧
    (∀ fs tv d, jlookup fs "title" = some tv → pyTruthy tv = true →
      jlookup fs "day_offset" = some d → pyInt d = none →
      validate_task (.obj fs) = .error .coercionFailure) ∧
    (∀ ts t e, t ∈ ts → validate_task t = .error e →
      ∃ e', validate_tasks ts = .error e') := by
  refine ⟨?_, ?_, validate_tasks_error_of_mem⟩
  · intro fs tv h ht h2
    refine ⟨⟨pyStrip (pyStr ((jlookup fs "title").getD (.str ""))),
             pyStrip (pyStr ((jlookup fs "content").getD (.str ""))), 0⟩, ?_, rfl⟩
    simp [validate_task, h, ht, h2, pyInt]
  · intro fs tv d h ht h2 hint
    simp [validate_task, h, ht, h2, hint]

/-- Witness for `parse_day_offset_policy` at concrete task dicts. -/
theorem parse_day_offset_policy_witness :
    (∃ it, validate_task (.obj [("title", .str "a")]) = .ok (some it) ∧ it.day_offset = 0) ∧
    validate_task (.obj [("title", .str "a"), ("day_offset", .null)]) =
      .error .coercionFailure ∧
    ∃ e', validate_tasks [.obj [("title", .str "a"), ("day_offset", .str "soon")]] =
      .error e' :=
  ⟨parse_day_offset_policy.1 [("title", .str "a")] (.str "a") rfl rfl rfl,
   parse_day_offset_policy.2.1 [("title", .str "a"), ("day_offset", .null)]
     (.str "a") .null rfl rfl rfl rfl,
   parse_day_offset_policy.2.2 [.obj [("title", .str "a"), ("day_offset", .str "soon")]]
     (.obj [("title", .str "a"), ("day_offset", .str "soon")]) .coercionFailure
     (List.mem_singleton.mpr rfl) rfl⟩

/-- Counterexample to claim C2: a surviving item whose `day_offset` is the
non-numeric string "soon" does not get `day_offset = 0`; the whole parse
raises instead. -/
theorem parse_day_offset_noncoercible_raises :
    generate_task_plan_parse
      (.obj [("tasks", .arr [.obj [("title", .str "Install"), ("day_offset", .str "soon")]])]) =
      .error .coercionFailure :=
  rfl

/-- Claim C3 (corrected): `render_planner_prompt` itself never raises -- it
returns a rendered prompt for every goal, the empty and whitespace-only
goals included.  The blank-goal check lives in `run_planner`, which strips
the raw input and returns to the menu, without rendering any prompt, when
the stripped goal is empty; a non-blank goal is rendered normally. -/
theorem planner_blank_goal_handling :
    (∀ goal context, render_planner_promptE goal context =
      .ok (render_planner_prompt goal context)) ∧
    (∀ s, pyStrip s = "" → run_planner_prompt s = none) ∧
    (∀ s, pyStrip s ≠ "" →
      run_planner_prompt s = some (render_planner_prompt (pyStrip s) run_planner_context)) := by
  refine ⟨fun _ _ => rfl, ?_, ?_⟩
  · intro s h
    simp [run_planner_prompt, h]
  · intro s h
    simp [run_planner_prompt, h]

/-- Witness for `planner_blank_goal_handling`: the whitespace-only input
aborts without a prompt, a real goal renders. -/
theorem planner_blank_goal_handling_witness :
    run_planner_prompt "   " = none ∧
    run_planner_prompt " 学习爬虫 " =
      some (render_planner_prompt (pyStrip " 学习爬虫 ") run_planner_context) :=
  ⟨planner_blank_goal_handling.2.1 "   " rfl,
   planner_blank_goal_handling.2.2 " 学习爬虫 " (by decide)⟩

/-- Counterexample to claim C3: rendering with the empty goal and with a
whitespace-only goal returns normally (no `ValidationError` is raised) and
produces a prompt. -/
theorem render_planner_prompt_blank_goal_no_raise :
    (render_planner_promptE "" "ctx").isOk = true ∧
    (render_planner_promptE "   " "ctx").isOk = true ∧
    pyContains (render_planner_prompt "" "ctx") "【任务拆解指令】" = true :=
  ⟨rfl, rfl, rfl⟩

/-- Whether the per-task loop keeps an element: it must be a dict whose
`title` key is present with a truthy value (`"title" not in task or not
task["title"]` is the skip condition). -/
def is_kept_task (t : JValue) : Bool :=
  match t with
  | .obj fs =>
    (match jlookup fs "title" with
     | some tv => pyTruthy tv
     | none => false)
  | _ => false

/-- Whether `int(task.get("day_offset", 0))` succeeds on the element. -/
def task_day_offset_coercible (t : JValue) : Bool :=
  match t with
  | .obj fs => (pyInt ((jlookup fs "day_offset").getD (.num 0))).isSome
  | _ => true

/-- A skipped element validates to `ok none`. -/
theorem validate_task_skip (t : JValue) (h : is_kept_task t = false) :
    validate_task t = .ok none := by
  cases t with
  | obj fs =>
    simp only [is_kept_task] at h
    match hl : jlookup fs "title" with
    | none => simp [validate_task, hl]
    | some tv =>
      rw [hl] at h
      simp only [] at h
      simp [validate_task, hl, h]
  | null => rfl
  | bool b => rfl
  | num n => rfl
  | str s => rfl
  | arr xs => rfl

/-- A kept element with a coercible `day_offset` validates to a record. -/
theorem validate_task_keep (t : JValue) (h : is_kept_task t = true)
    (hc : task_day_offset_coercible t = true) :
    ∃ it, validate_task t = .ok (some it) := by
  cases t with
  | obj fs =>
    simp only [is_kept_task] at h
    simp only [task_day_offset_coercible] at hc
    match hl : jlookup fs "title" with
    | none => rw [hl] at h; cases h
    | some tv =>
      rw [hl] at h
      simp only [] at h
      rw [Option.isSome_iff_exists] at hc
      obtain ⟨d, hd⟩ := hc
      exact ⟨{ title := pyStrip (pyStr tv),
               content := pyStrip (pyStr ((jlookup fs "content").getD (.str ""))),
               day_offset := d }, by simp [validate_task, hl, h, hd]⟩
  | null => cases h
  | bool b => cases h
  | num n => cases h
  | str s => cases h
  | arr xs => cases h

/-- Claim C4 (corrected): provided every kept element's `day_offset`
coerces, the validation never errors and returns exactly one record per
element that is a dict with a *truthy* raw `title` -- the filter tests the
raw value's truthiness, not emptiness after trimming, so a whitespace-only
title is kept (and trimmed to the empty string in the record). -/
theorem parse_title_filter_count :
    ∀ ts : List JValue,
      (∀ t ∈ ts, is_kept_task t = true → task_day_offset_coercible t = true) →
      ∃ l, validate_tasks ts = .ok l ∧
        l.length = (ts.filter is_kept_task).length ∧
        generate_task_plan_parse (.obj [("tasks", .arr ts)]) = .ok l := by
  intro ts hts
  have main : ∃ l, validate_tasks ts = .ok l ∧ l.length = (ts.filter is_kept_task).length := by
    induction ts with
    | nil => exact ⟨[], rfl, rfl⟩
    | cons hd tl ih =>
      obtain ⟨l, hl, hlen⟩ := ih (fun t ht => hts t (List.mem_cons_of_mem hd ht))
      cases hk : is_kept_task hd with
      | false =>
        refine ⟨l, ?_, ?_⟩
        · unfold validate_tasks
          rw [validate_task_skip hd hk]
          exact hl
        · rw [hlen, List.filter_cons_of_neg (by simp [hk])]
      | true =>
        obtain ⟨it, hit⟩ := validate_task_keep hd hk (hts hd (List.mem_cons_self hd tl) hk)
        refine ⟨it :: l, ?_, ?_⟩
        · unfold validate_tasks
          rw [hit, hl]
          rfl
        · rw [List.filter_cons_of_pos (by simp [hk])]
          simp [hlen]
  obtain ⟨l, hl, hlen⟩ := main
  exact ⟨l, hl, hlen, by simp [generate_task_plan_parse, jlookup]; exact hl⟩

/-- Witness for `parse_title_filter_count`: a mixed array (one good item,
one dict without title, one non-dict, one dict with an empty title) yields
exactly one record. -/
theorem parse_title_filter_count_witness :
    ∃ l, validate_tasks
        [.obj [("title", .str "a")], .obj [("content", .str "x")], .str "junk",
         .obj [("title", .str "")]] = .ok l ∧
      l.length = (List.filter is_kept_task
        [.obj [("title", .str "a")], .obj [("content", .str "x")], .str "junk",
         .obj [("title", .str "")]]).length ∧
      generate_task_plan_parse
        (.obj [("tasks", .arr
          [.obj [("title", .str "a")], .obj [("content", .str "x")], .str "junk",
           .obj [("title", .str "")]])]) = .ok l :=
  parse_title_filter_count
    [.obj [("title", .str "a")], .obj [("content", .str "x")], .str "junk",
     .obj [("title", .str "")]]
    (by intro t ht; fin_cases ht <;> simp [is_kept_task, task_day_offset_coercible, jlookup, pyInt])

/-- Counterexample to claim C4: an item whose title is whitespace-only (so
empty after trimming) is NOT excluded -- the parse returns one record (with
the title trimmed to the empty string), where the claim demands zero. -/
theorem parse_whitespace_title_kept :
    pyStrip "   " = "" ∧
    generate_task_plan_parse (.obj [("tasks", .arr [.obj [("title", .str "   ")]])]) =
      .ok [{ title := "", content := "", day_offset := 0 }] :=
  ⟨rfl, rfl⟩

/-- A well-formed plan item in the claim's sense: a JSON object whose
`title` is a non-empty string and whose `day_offset` is either absent or a
JSON integer. -/
def valid_plan_item (t : JValue) : Prop :=
  ∃ fs s, t = .obj fs ∧ jlookup fs "title" = some (.str s) ∧ s ≠ "" ∧
    (jlookup fs "day_offset" = none ∨ ∃ d : Int, jlookup fs "day_offset" = some (.num d))

/-- The record the per-task loop builds from a surviving element (the same
expressions as the `validated_task` dict literal). -/
def mk_item (t : JValue) : PlanItem :=
  match t with
  | .obj fs =>
    { title := pyStrip (pyStr ((jlookup fs "title").getD (.str ""))),
      content := pyStrip (pyStr ((jlookup fs "content").getD (.str ""))),
      day_offset := (pyInt ((jlookup fs "day_offset").getD (.num 0))).getD 0 }
  | _ => { title := "", content := "", day_offset := 0 }

/-- The `day_offset` the claim expects for a well-formed element: the
item's integer value when the field is present, `0` when absent. -/
def item_day_offset (t : JValue) : Int :=
  match t with
  | .obj fs =>
    (match jlookup fs "day_offset" with
     | some (.num d) => d
     | _ => 0)
  | _ => 0

/-- A well-formed element validates to exactly its record. -/
theorem validate_task_of_valid (t : JValue) (h : valid_plan_item t) :
    validate_task t = .ok (some (mk_item t)) := by
  obtain ⟨fs, s, rfl, ht, hs, hd⟩ := h
  have htruthy : pyTruthy (.str s) = true := by simp [pyTruthy, hs]
  rcases hd with h0 | ⟨d, hd'⟩
  · simp [validate_task, mk_item, ht, htruthy, h0, pyInt]
  · simp [validate_task, mk_item, ht, htruthy, hd', pyInt]

/-- The validation maps a list of well-formed elements to their records. -/
theorem validate_tasks_of_valid (ts : List JValue) (h : ∀ t ∈ ts, valid_plan_item t) :
    validate_tasks ts = .ok (ts.map mk_item) := by
  induction ts with
  | nil => rfl
  | cons hd tl ih =>
    unfold validate_tasks
    rw [validate_task_of_valid hd (h hd (List.mem_cons_self hd tl)),
        ih (fun t ht => h t (List.mem_cons_of_mem hd ht))]
    rfl

/-- Claim C5 (confirmed): a reply that is a JSON object whose `tasks` array
holds N well-formed items parses to exactly N records, in array order, each
record's `day_offset` being the item's value when present and `0` when
absent. -/
theorem parse_valid_items_complete :
    ∀ ts : List JValue, (∀ t ∈ ts, valid_plan_item t) →
      generate_task_plan_parse (.obj [("tasks", .arr ts)]) = .ok (ts.map mk_item) ∧
      (ts.map mk_item).length = ts.length ∧
      ∀ t ∈ ts, (mk_item t).day_offset = item_day_offset t := by
  intro ts h
  refine ⟨?_, List.length_map ts mk_item, ?_⟩
  · simp only [generate_task_plan_parse, jlookup, List.find?, beq_self_eq_true,
      Option.map_some, Option.getD_some]
    exact validate_tasks_of_valid ts h
  · intro t ht
    obtain ⟨fs, s, rfl, htitle, hs, hd⟩ := h t ht
    rcases hd with h0 | ⟨d, hd'⟩
    · simp [mk_item, item_day_offset, h0, pyInt]
    · simp [mk_item, item_day_offset, hd', pyInt]

/-- Witness for `parse_valid_items_complete`: the round-trip scenario from
the spec, two valid items, parsed back verbatim with their day offsets. -/
theorem parse_valid_items_complete_witness :
    generate_task_plan_parse
      (.obj [("tasks", .arr
        [.obj [("title", .str "Install Python and requests library"),
               ("content", .str "pip install requests bs4"), ("day_offset", .num 0)],
         .obj [("title", .str "Fetch a static page"),
               ("content", .str ""), ("day_offset", .num 1)]])]) =
      .ok (List.map mk_item
        [.obj [("title", .str "Install Python and requests library"),
               ("content", .str "pip install requests bs4"), ("day_offset", .num 0)],
         .obj [("title", .str "Fetch a static page"),
               ("content", .str ""), ("day_offset", .num 1)]]) ∧
    List.map mk_item
        [.obj [("title", .str "Install Python and requests library"),
               ("content", .str "pip install requests bs4"), ("day_offset", .num 0)],
         .obj [("title", .str "Fetch a static page"),
               ("content", .str ""), ("day_offset", .num 1)]] =
      [{ title := "Install Python and requests library",
         content := "pip install requests bs4", day_offset := 0 },
       { title := "Fetch a static page", content := "", day_offset := 1 }] :=
  ⟨(parse_valid_items_complete
      [.obj [("title", .str "Install Python and requests library"),
             ("content", .str "pip install requests bs4"), ("day_offset", .num 0)],
       .obj [("title", .str "Fetch a static page"),
             ("content", .str ""), ("day_offset", .num 1)]]
      (by
        intro t ht
        rcases List.mem_cons.mp ht with rfl | ht2
        · exact ⟨_, "Install Python and requests library", rfl, rfl, by decide,
            Or.inr ⟨0, rfl⟩⟩
        · rcases List.mem_cons.mp ht2 with rfl | ht3
          · exact ⟨_, "Fetch a static page", rfl, rfl, by decide, Or.inr ⟨1, rfl⟩⟩
          · cases ht3)).1,
   rfl⟩

/-- Claim C6 (corrected): when the marker is present, the terminal display
raises the flag and shows the remainder with the marker AND the boilerplate
phrase replaced away (whenever that remainder is non-empty); the WeChat
handler also raises a flag header and keeps the remainder, but it strips
ONLY the marker -- the boilerplate phrase is not removed on that path.
Nothing beyond an empty-after-stripping remainder is ever discarded. -/
theorem audit_marker_handling :
    (∀ r, pyContains (pyStrip r) audit_marker = true →
      (display_stream_response r).1 = true) ∧
    (∀ r a, pyContains (pyStrip r) audit_marker = true →
      a = pyStrip (pyReplace (pyReplace (pyStrip r) audit_marker "") audit_boilerplate "") →
      a ≠ "" → (display_stream_response r).2 = some a) ∧
    (∀ r, (display_stream_response r).2 = none →
      pyContains (pyStrip r) audit_marker = true ∧
      pyStrip (pyReplace (pyReplace (pyStrip r) audit_marker "") audit_boilerplate "") = "") ∧
    (∀ r, pyContains r audit_marker = true →
      process_wechat_reply r = wechat_flag_header ++ pyStrip (pyReplace r audit_marker "")) := by
  refine ⟨?_, ?_, ?_, ?_⟩
  · intro r h
    simp [display_stream_response, h]
  · intro r a h ha hne
    subst ha
    simp [display_stream_response, h, hne]
  · intro r h
    by_cases hm : pyContains (pyStrip r) audit_marker = true
    · refine ⟨hm, ?_⟩
      by_cases he :
        pyStrip (pyReplace (pyReplace (pyStrip r) audit_marker "") audit_boilerplate "") = ""
      · exact he
      · simp [display_stream_response, hm, he] at h
    · simp [display_stream_response, hm] at h
  · intro r h
    simp [process_wechat_reply, h]

/-- Witness for `audit_marker_handling` at concrete responses. -/
theorem audit_marker_handling_witness :
    (display_stream_response "[Audit Note]强制休息。").1 = true ∧
    (display_stream_response "[Audit Note]强制休息。").2 = some "强制休息。" ∧
    (pyContains (pyStrip "[Audit Note]") audit_marker = true ∧
      pyStrip (pyReplace (pyReplace (pyStrip "[Audit Note]") audit_marker "")
        audit_boilerplate "") = "") ∧
    process_wechat_reply "[Audit Note]强制休息。" =
      wechat_flag_header ++ pyStrip (pyReplace "[Audit Note]强制休息。" audit_marker "") :=
  ⟨audit_marker_handling.1 "[Audit Note]强制休息。" rfl,
   audit_marker_handling.2.1 "[Audit Note]强制休息。" "强制休息。" rfl rfl (by decide),
   audit_marker_handling.2.2.1 "[Audit Note]" rfl,
   audit_marker_handling.2.2.2 "[Audit Note]强制休息。" rfl⟩

/-- Counterexample to claim C6: on the chat-bridge path the accompanying
boilerplate phrase is NOT removed -- the WeChat reply to a marked response
still contains it (the terminal path does strip it from the same input). -/
theorem wechat_reply_keeps_boilerplate :
    pyContains
      (process_wechat_reply
        ("[Audit Note]记录负面偏差，待总结复盘原因（方法论 vs 输入量）。检测到效能下降，强制物理阻断 15 分钟。"))
      audit_boilerplate = true ∧
    pyContains
      ((display_stream_response
        ("[Audit Note]记录负面偏差，待总结复盘原因（方法论 vs 输入量）。检测到效能下降，强制物理阻断 15 分钟。")).2.getD "")
      audit_boilerplate = false :=
  ⟨rfl, rfl⟩

/-- Claim C7 (confirmed): the planner render is a pure function of its two
string arguments -- two invocations with identical argument tuples return
byte-identical prompt strings (the source body reads nothing but `goal` and
`context`). -/
theorem render_planner_prompt_deterministic :
    ∀ g1 c1 g2 c2 : String, g1 = g2 → c1 = c2 →
      render_planner_prompt g1 c1 = render_planner_prompt g2 c2 := by
  intro g1 c1 g2 c2 h1 h2
  rw [h1, h2]

/-- Witness for `render_planner_prompt_deterministic` at a concrete call. -/
theorem render_planner_prompt_deterministic_witness :
    render_planner_prompt "学习爬虫" "循序渐进" = render_planner_prompt "学习爬虫" "循序渐进" :=
  render_planner_prompt_deterministic "学习爬虫" "循序渐进" "学习爬虫" "循序渐进" rfl rfl

set_option maxRecDepth 40000 in
/-- Claim C8 (confirmed): a dashboard render with `total_active_tasks = 12`,
`overdue_tasks = 2`, `high_priority_count = 3` and a two-line task sample
produces a prompt containing the literal substrings "12", "2", "3" and both
sample lines verbatim. -/
theorem dashboard_prompt_contains_stats :
    pyContains (render_dashboard_prompt ⟨12, some 2, some 3⟩
      (format_task_list_for_dashboard
        [⟨"Work", "Fix login bug", some "2025-01-10", some 5, []⟩,
         ⟨"Life", "Buy groceries", none, none, []⟩])) "12" = true ∧
    pyContains (render_dashboard_prompt ⟨12, some 2, some 3⟩
      (format_task_list_for_dashboard
        [⟨"Work", "Fix login bug", some "2025-01-10", some 5, []⟩,
         ⟨"Life", "Buy groceries", none, none, []⟩])) "2" = true ∧
    pyContains (render_dashboard_prompt ⟨12, some 2, some 3⟩
      (format_task_list_for_dashboard
        [⟨"Work", "Fix login bug", some "2025-01-10", some 5, []⟩,
         ⟨"Life", "Buy groceries", none, none, []⟩])) "3" = true ∧
    pyContains (render_dashboard_prompt ⟨12, some 2, some 3⟩
      (format_task_list_for_dashboard
        [⟨"Work", "Fix login bug", some "2025-01-10", some 5, []⟩,
         ⟨"Life", "Buy groceries", none, none, []⟩]))
      "1. [Work] Fix login bug (Due: 2025-01-10) [Priority]" = true ∧
    pyContains (render_dashboard_prompt ⟨12, some 2, some 3⟩
      (format_task_list_for_dashboard
        [⟨"Work", "Fix login bug", some "2025-01-10", some 5, []⟩,
         ⟨"Life", "Buy groceries", none, none, []⟩])) "2. [Life] Buy groceries" = true :=
  ⟨rfl, rfl, rfl, rfl, rfl⟩

/-- Claim C9 (confirmed): appending to an existing daily-log sequence `L`
stores exactly `L` followed by the new entry -- the whole file is re-read,
the entry appended in memory, and the whole list rewritten, so every prior
entry is preserved unchanged. -/
theorem add_log_entry_appends :
    ∀ (L : List JValue) (lt c ar : String) (auto : Bool) (now : String),
      add_log_entry (.stored (.arr L)) lt c ar auto now =
        .stored (.arr (L ++ [mk_log_entry lt c ar auto now])) ∧
      get_today_logs (add_log_entry (.stored (.arr L)) lt c ar auto now) =
        L ++ [mk_log_entry lt c ar auto now] := by
  intro L lt c ar auto now
  exact ⟨rfl, rfl⟩

/-- Claim C10 (confirmed): `get_today_logs` is total and returns the empty
list when the file is missing, unreadable (invalid JSON -- all exceptions
are caught), or parses to a non-list; a subsequent append then stores a
single-entry list. -/
theorem get_today_logs_total_defaults :
    get_today_logs .missing = [] ∧
    get_today_logs .malformed = [] ∧
    (∀ v, jIsArr v = false → get_today_logs (.stored v) = []) ∧
    (∀ v lt c ar auto now, jIsArr v = false →
      add_log_entry (.stored v) lt c ar auto now =
        .stored (.arr [mk_log_entry lt c ar auto now])) ∧
    (∀ lt c ar auto now,
      add_log_entry .malformed lt c ar auto now =
        .stored (.arr [mk_log_entry lt c ar auto now]) ∧
      add_log_entry .missing lt c ar auto now =
        .stored (.arr [mk_log_entry lt c ar auto now])) := by
  refine ⟨rfl, rfl, ?_, ?_, fun _ _ _ _ _ => ⟨rfl, rfl⟩⟩
  · intro v h
    cases v <;> simp_all [get_today_logs, jIsArr]
  · intro v lt c ar auto now h
    cases v <;> simp_all [add_log_entry, get_today_logs, jIsArr]

/-- Witness for `get_today_logs_total_defaults`: a stored non-list value. -/
theorem get_today_logs_total_defaults_witness :
    get_today_logs (.stored (.obj [("oops", .num 1)])) = [] ∧
    add_log_entry (.stored (.obj [("oops", .num 1)])) "user_input" "hi" "" true "2025-01-01T08:00:00" =
      .stored (.arr [mk_log_entry "user_input" "hi" "" true "2025-01-01T08:00:00"]) :=
  ⟨get_today_logs_total_defaults.2.2.1 (.obj [("oops", .num 1)]) rfl,
   get_today_logs_total_defaults.2.2.2.1 (.obj [("oops", .num 1)])
     "user_input" "hi" "" true "2025-01-01T08:00:00" rfl⟩
